import Mathlib

/-!
Verification of the EndCrypt envelope-encryption core
(`src/services/awsKmsService.ts`, class `AWSKMSService`).

The development is a shallow embedding of the service:

* JavaScript strings handled by the crypto core are modelled as `List Char`
  (`Str` below).  The token produced by `tokenizeData` is a real character
  list, because `detokenizeData` parses it with `startsWith` / `split(':')`;
  those two string operations are embedded concretely (`splitColon`).
* `Buffer.from(data).toString('base64')` (UTF-8 encode, then base64) and its
  inverse `Buffer.from(b64, 'base64').toString()` are embedded concretely
  (`utf8e`, `b64e` and their inverses), since the tokenizer's behaviour
  depends on the text of the base64 output (no colon characters, emptiness).
* True cryptographic primitives that cannot be re-implemented meaningfully
  are modelled symbolically: a ciphertext is a `CipherText` term recording
  which transform produced it (`base64` blob, AWS-KMS root-key encryption
  bound to an encryption context, or `createCipher('aes-256-cbc', key)`).
  Decryption of a symbolic ciphertext succeeds exactly when the real
  primitive would recover the plaintext (matching key / matching context),
  which is the faithful wrap/unwrap model the round-trip claims assume.
* Randomness (`crypto.randomUUID`, `crypto.randomBytes`, the KMS-generated
  key material) and the clock (`new Date()`) are passed in explicitly as
  parameters, and the mutable `keyCache` map is threaded as explicit state.
-/

set_option linter.unusedVariables false

/-- Characters of a JavaScript string, the unit the tokenizer works on. -/
abbrev Str := List Char

/-! ### `String.prototype.split(':')` -/

/-- Embedding of JavaScript `s.split(':')` on character lists: splits at every
colon; `"".split(':')` is `[""]`, and a trailing colon yields a trailing empty
part, exactly as in JavaScript. -/
def splitColon : Str → List Str
  | [] => [[]]
  | c :: rest =>
    if c = ':' then [] :: splitColon rest
    else
      match splitColon rest with
      | [] => [[c]]
      | g :: gs => (c :: g) :: gs

theorem splitColon_ne_nil (l : Str) : splitColon l ≠ [] := by
  cases l with
  | nil => simp [splitColon]
  | cons c rest =>
    simp only [splitColon]
    by_cases hc : c = ':'
    · simp [hc]
    · simp only [hc, if_false]
      cases h : splitColon rest <;> simp

/-- Splitting a colon-free prefix followed by a colon peels off that prefix. -/
theorem splitColon_append (a r : Str) (ha : ':' ∉ a) :
    splitColon (a ++ ':' :: r) = a :: splitColon r := by
  induction a with
  | nil => simp [splitColon]
  | cons c a ih =>
    have hc : c ≠ ':' := fun h => ha (h ▸ List.mem_cons_self c a)
    have ha2 : ':' ∉ a := fun h => ha (List.mem_cons_of_mem c h)
    simp only [List.cons_append, splitColon, hc, if_false, List.append_eq, ih ha2]

/-- Splitting a colon-free string returns that string as the single part. -/
theorem splitColon_no_colon (a : Str) (ha : ':' ∉ a) : splitColon a = [a] := by
  induction a with
  | nil => simp [splitColon]
  | cons c a ih =>
    have hc : c ≠ ':' := fun h => ha (h ▸ List.mem_cons_self c a)
    have ha2 : ':' ∉ a := fun h => ha (List.mem_cons_of_mem c h)
    simp only [splitColon, hc, if_false, ih ha2]

/-! ### `startsWith` -/

theorem isPrefixOf_append_self (l r : Str) : l.isPrefixOf (l ++ r) = true := by
  induction l with
  | nil => simp [List.isPrefixOf]
  | cons c l ih => simp [List.isPrefixOf, ih]

/-! ### Base64 (`Buffer.prototype.toString('base64')`) -/

/-- Standard base64 alphabet. -/
def b64Alphabet : List Char :=
  "ABCDEFGHIJKLMNOPQRSTUVWXYZabcdefghijklmnopqrstuvwxyz0123456789+/".toList

/-- Character for a 6-bit group. -/
def sextetChar (n : Nat) : Char := b64Alphabet.getD n 'A'

/-- Index of a character in the base64 alphabet (length of the alphabet when
absent), mirroring an `indexOf` lookup. -/
def indexOfChar : List Char → Char → Nat
  | [], _ => 0
  | a :: rest, c => if a = c then 0 else indexOfChar rest c + 1

/-- Inverse alphabet lookup: 6-bit value of a base64 character, `none` for
padding and characters outside the alphabet. -/
def charSextet (c : Char) : Option Nat :=
  if indexOfChar b64Alphabet c < 64 then some (indexOfChar b64Alphabet c) else none

/-- Base64 encoding of a byte sequence (bytes as `Nat` values below 256). -/
def b64e : List Nat → List Char
  | [] => []
  | [b1] =>
    [sextetChar (b1 / 4), sextetChar (b1 % 4 * 16), '=', '=']
  | [b1, b2] =>
    [sextetChar (b1 / 4), sextetChar (b1 % 4 * 16 + b2 / 16),
     sextetChar (b2 % 16 * 4), '=']
  | b1 :: b2 :: b3 :: rest =>
    sextetChar (b1 / 4) :: sextetChar (b1 % 4 * 16 + b2 / 16) ::
    sextetChar (b2 % 16 * 4 + b3 / 64) :: sextetChar (b3 % 64) :: b64e rest

/-- Reassemble bytes from a sequence of 6-bit groups. -/
def sextetsToBytes : List Nat → List Nat
  | s1 :: s2 :: s3 :: s4 :: rest =>
    (s1 * 4 + s2 / 16) :: (s2 % 16 * 16 + s3 / 4) :: (s3 % 4 * 64 + s4) ::
      sextetsToBytes rest
  | [s1, s2] => [s1 * 4 + s2 / 16]
  | [s1, s2, s3] => [s1 * 4 + s2 / 16, s2 % 16 * 16 + s3 / 4]
  | _ => []

/-- Base64 decoding: drop padding and foreign characters, then regroup,
mirroring Node's lenient `Buffer.from(s, 'base64')`. -/
def b64d (cs : List Char) : List Nat :=
  sextetsToBytes (cs.filterMap charSextet)

theorem charSextet_sextetChar : ∀ n, n < 64 → charSextet (sextetChar n) = some n := by
  decide

theorem charSextet_eq : charSextet '=' = none := by decide

theorem sextetChar_ne_colon (n : Nat) : sextetChar n ≠ ':' := by
  by_cases h : n < 64
  · revert n; decide
  · have hlen : b64Alphabet.length ≤ n := by
      have : b64Alphabet.length = 64 := by decide
      omega
    unfold sextetChar
    rw [List.getD_eq_default _ _ hlen]
    decide

theorem b64e_roundtrip : ∀ bs : List Nat, (∀ b ∈ bs, b < 256) → b64d (b64e bs) = bs
  | [], _ => rfl
  | [b1], h => by
    have hb1 : b1 < 256 := h b1 (by simp)
    have h1 : b1 / 4 < 64 := by omega
    have h2 : b1 % 4 * 16 < 64 := by omega
    simp only [b64e, b64d, List.filterMap_cons, charSextet_sextetChar _ h1,
      charSextet_sextetChar _ h2, charSextet_eq, List.filterMap_nil]
    simp only [sextetsToBytes]
    congr 1
    omega
  | [b1, b2], h => by
    have hb1 : b1 < 256 := h b1 (by simp)
    have hb2 : b2 < 256 := h b2 (by simp)
    have h1 : b1 / 4 < 64 := by omega
    have h2 : b1 % 4 * 16 + b2 / 16 < 64 := by omega
    have h3 : b2 % 16 * 4 < 64 := by omega
    simp only [b64e, b64d, List.filterMap_cons, charSextet_sextetChar _ h1,
      charSextet_sextetChar _ h2, charSextet_sextetChar _ h3, charSextet_eq,
      List.filterMap_nil]
    simp only [sextetsToBytes, List.cons.injEq, and_true]
    exact ⟨by omega, by omega⟩
  | b1 :: b2 :: b3 :: rest, h => by
    have hb1 : b1 < 256 := h b1 (by simp)
    have hb2 : b2 < 256 := h b2 (by simp)
    have hb3 : b3 < 256 := h b3 (by simp)
    have hrest : ∀ b ∈ rest, b < 256 := fun b hb => h b (by simp [hb])
    have h1 : b1 / 4 < 64 := by omega
    have h2 : b1 % 4 * 16 + b2 / 16 < 64 := by omega
    have h3 : b2 % 16 * 4 + b3 / 64 < 64 := by omega
    have h4 : b3 % 64 < 64 := by omega
    have ih := b64e_roundtrip rest hrest
    simp only [b64d] at ih
    simp only [b64e, b64d, List.filterMap_cons, charSextet_sextetChar _ h1,
      charSextet_sextetChar _ h2, charSextet_sextetChar _ h3,
      charSextet_sextetChar _ h4]
    simp only [sextetsToBytes, ih, List.cons.injEq]
    refine ⟨by omega, by omega, by omega, trivial⟩

theorem b64e_no_colon : ∀ (bs : List Nat), ':' ∉ b64e bs
  | [] => by simp [b64e]
  | [b1] => by
    simp only [b64e, List.mem_cons, List.not_mem_nil, or_false]
    push_neg
    refine ⟨?_, ?_, ?_, ?_⟩
    · exact fun h => sextetChar_ne_colon _ h.symm
    · exact fun h => sextetChar_ne_colon _ h.symm
    · decide
    · decide
  | [b1, b2] => by
    simp only [b64e, List.mem_cons, List.not_mem_nil, or_false]
    push_neg
    refine ⟨?_, ?_, ?_, ?_⟩
    · exact fun h => sextetChar_ne_colon _ h.symm
    · exact fun h => sextetChar_ne_colon _ h.symm
    · exact fun h => sextetChar_ne_colon _ h.symm
    · decide
  | b1 :: b2 :: b3 :: rest => by
    simp only [b64e, List.mem_cons]
    push_neg
    refine ⟨?_, ?_, ?_, ?_, ?_⟩
    · exact fun h => sextetChar_ne_colon _ h.symm
    · exact fun h => sextetChar_ne_colon _ h.symm
    · exact fun h => sextetChar_ne_colon _ h.symm
    · exact fun h => sextetChar_ne_colon _ h.symm
    · exact b64e_no_colon rest

theorem b64e_ne_nil (bs : List Nat) (h : bs ≠ []) : b64e bs ≠ [] := by
  match bs with
  | [] => exact absurd rfl h
  | [b1] => simp [b64e]
  | [b1, b2] => simp [b64e]
  | b1 :: b2 :: b3 :: rest => simp [b64e]

/-! ### UTF-8 (`Buffer.from(string)` and `buffer.toString()`) -/

/-- UTF-8 encoding of a single Unicode code point. -/
def utf8e1 (n : Nat) : List Nat :=
  if n < 0x80 then [n]
  else if n < 0x800 then [0xC0 + n / 64, 0x80 + n % 64]
  else if n < 0x10000 then
    [0xE0 + n / 4096, 0x80 + n / 64 % 64, 0x80 + n % 64]
  else
    [0xF0 + n / 262144, 0x80 + n / 4096 % 64, 0x80 + n / 64 % 64, 0x80 + n % 64]

/-- UTF-8 encoding of a character list (`Buffer.from(data)`). -/
def utf8e : Str → List Nat
  | [] => []
  | c :: cs => utf8e1 c.toNat ++ utf8e cs

/-- Lenient UTF-8 decoding of a byte list (`buffer.toString()`); only its
behaviour on well-formed encoder output matters here. -/
def utf8d : List Nat → Str
  | [] => []
  | b1 :: t1 =>
    if b1 < 0x80 then Char.ofNat b1 :: utf8d t1
    else if b1 < 0xC0 then utf8d t1
    else if b1 < 0xE0 then
      Char.ofNat ((b1 - 0xC0) * 64 + t1.headD 0 % 64) :: utf8d t1.tail
    else if b1 < 0xF0 then
      Char.ofNat ((b1 - 0xE0) * 4096 + t1.headD 0 % 64 * 64 + t1.tail.headD 0 % 64)
        :: utf8d t1.tail.tail
    else
      Char.ofNat ((b1 - 0xF0) * 262144 + t1.headD 0 % 64 * 4096
          + t1.tail.headD 0 % 64 * 64 + t1.tail.tail.headD 0 % 64)
        :: utf8d t1.tail.tail.tail
termination_by l => l.length
decreasing_by
  all_goals simp [List.length_tail]
  all_goals omega

theorem char_toNat_lt (c : Char) : c.toNat < 0x110000 := by
  have h := c.valid
  simp only [UInt32.isValidChar, Nat.isValidChar] at h
  rcases h with h | h
  · exact Nat.lt_trans h (by decide)
  · exact h.2

theorem utf8e1_bytes_lt (n : Nat) (hn : n < 0x110000) : ∀ b ∈ utf8e1 n, b < 256 := by
  intro b hb
  unfold utf8e1 at hb
  by_cases h1 : n < 0x80
  · simp [h1] at hb; omega
  · by_cases h2 : n < 0x800
    · simp [h1, h2] at hb
      rcases hb with hb | hb <;> omega
    · by_cases h3 : n < 0x10000
      · simp [h1, h2, h3] at hb
        rcases hb with hb | hb | hb <;> omega
      · simp [h1, h2, h3] at hb
        rcases hb with hb | hb | hb | hb <;> omega

theorem utf8e_bytes_lt (s : Str) : ∀ b ∈ utf8e s, b < 256 := by
  induction s with
  | nil => simp [utf8e]
  | cons c cs ih =>
    intro b hb
    simp only [utf8e, List.mem_append] at hb
    rcases hb with hb | hb
    · exact utf8e1_bytes_lt c.toNat (char_toNat_lt c) b hb
    · exact ih b hb

theorem utf8d_utf8e1 (c : Char) (rest : List Nat) :
    utf8d (utf8e1 c.toNat ++ rest) = c :: utf8d rest := by
  have hlt : c.toNat < 0x110000 := char_toNat_lt c
  unfold utf8e1
  by_cases h1 : c.toNat < 0x80
  · rw [if_pos h1]
    simp only [List.cons_append, List.nil_append, utf8d]
    rw [if_pos h1, Char.ofNat_toNat]
  · by_cases h2 : c.toNat < 0x800
    · have e1 : ¬ (0xC0 + c.toNat / 64 < 0x80) := by omega
      have e2 : ¬ (0xC0 + c.toNat / 64 < 0xC0) := by omega
      have e3 : 0xC0 + c.toNat / 64 < 0xE0 := by omega
      have e4 : (0xC0 + c.toNat / 64 - 0xC0) * 64 + (0x80 + c.toNat % 64) % 64 = c.toNat := by
        omega
      rw [if_neg h1, if_pos h2]
      simp only [List.cons_append, List.nil_append, utf8d]
      rw [if_neg e1, if_neg e2, if_pos e3]
      simp only [List.headD_cons, List.tail_cons]
      rw [e4, Char.ofNat_toNat]
    · by_cases h3 : c.toNat < 0x10000
      · have e1 : ¬ (0xE0 + c.toNat / 4096 < 0x80) := by omega
        have e2 : ¬ (0xE0 + c.toNat / 4096 < 0xC0) := by omega
        have e3 : ¬ (0xE0 + c.toNat / 4096 < 0xE0) := by omega
        have e4 : 0xE0 + c.toNat / 4096 < 0xF0 := by omega
        have e5 : (0xE0 + c.toNat / 4096 - 0xE0) * 4096 + (0x80 + c.toNat / 64 % 64) % 64 * 64
            + (0x80 + c.toNat % 64) % 64 = c.toNat := by omega
        rw [if_neg h1, if_neg h2, if_pos h3]
        simp only [List.cons_append, List.nil_append, utf8d]
        rw [if_neg e1, if_neg e2, if_neg e3, if_pos e4]
        simp only [List.headD_cons, List.tail_cons]
        rw [e5, Char.ofNat_toNat]
      · have e1 : ¬ (0xF0 + c.toNat / 262144 < 0x80) := by omega
        have e2 : ¬ (0xF0 + c.toNat / 262144 < 0xC0) := by omega
        have e3 : ¬ (0xF0 + c.toNat / 262144 < 0xE0) := by omega
        have e4 : ¬ (0xF0 + c.toNat / 262144 < 0xF0) := by omega
        have e5 : (0xF0 + c.toNat / 262144 - 0xF0) * 262144
            + (0x80 + c.toNat / 4096 % 64) % 64 * 4096
            + (0x80 + c.toNat / 64 % 64) % 64 * 64
            + (0x80 + c.toNat % 64) % 64 = c.toNat := by omega
        rw [if_neg h1, if_neg h2, if_neg h3]
        simp only [List.cons_append, List.nil_append, utf8d]
        rw [if_neg e1, if_neg e2, if_neg e3, if_neg e4]
        simp only [List.headD_cons, List.tail_cons]
        rw [e5, Char.ofNat_toNat]

theorem utf8_roundtrip (s : Str) : utf8d (utf8e s) = s := by
  induction s with
  | nil => simp [utf8e, utf8d]
  | cons c cs ih => simp only [utf8e, utf8d_utf8e1, ih]

theorem utf8e_ne_nil (s : Str) (h : s ≠ []) : utf8e s ≠ [] := by
  match s with
  | [] => exact absurd rfl h
  | c :: cs =>
    simp only [utf8e]
    intro habs
    rcases List.append_eq_nil.mp habs with ⟨h1, _⟩
    unfold utf8e1 at h1
    by_cases e1 : c.toNat < 0x80
    · simp [e1] at h1
    · by_cases e2 : c.toNat < 0x800
      · simp [e1, e2] at h1
      · by_cases e3 : c.toNat < 0x10000
        · simp [e1, e2, e3] at h1
        · simp [e1, e2, e3] at h1

/-! ### `Buffer.from(data).toString('base64')` and its inverse -/

/-- Embedding of `Buffer.from(data).toString('base64')`: UTF-8 encode the
string, then base64 the bytes. -/
def toB64 (s : Str) : Str := b64e (utf8e s)

/-- Embedding of `Buffer.from(t, 'base64').toString()`: base64-decode, then
decode the bytes as UTF-8. -/
def fromB64 (t : Str) : Str := utf8d (b64d t)

theorem fromB64_toB64 (s : Str) : fromB64 (toB64 s) = s := by
  unfold fromB64 toB64
  rw [b64e_roundtrip (utf8e s) (utf8e_bytes_lt s), utf8_roundtrip]

theorem toB64_no_colon (s : Str) : ':' ∉ toB64 s := b64e_no_colon (utf8e s)

theorem toB64_ne_nil (s : Str) (h : s ≠ []) : toB64 s ≠ [] :=
  b64e_ne_nil (utf8e s) (utf8e_ne_nil s h)

/-! ### Data model of `awsKmsService.ts` -/

/-- Encryption context: a `Record<string, string>`. -/
abbrev CtxMap := List (String × String)

/-- Values of the `DataClassification` string enum. -/
def DataClassification.PUBLIC : String := "public"

def DataClassification.INTERNAL : String := "internal"

def DataClassification.CONFIDENTIAL : String := "confidential"

def DataClassification.RESTRICTED : String := "restricted"

/-- The `ENCRYPTION_CONFIG` module constant.  `environment` is
`process.env.NODE_ENV || 'development'`; it is the same constant at encrypt
and decrypt time since both run in the same process, so it is fixed here. -/
structure EncryptionConfig where
  algorithm : String
  keySpec : String
  encryptionContext : CtxMap
deriving DecidableEq

def ENCRYPTION_CONFIG : EncryptionConfig :=
  { algorithm := "aes-256-gcm"
    keySpec := "AES_256"
    encryptionContext :=
      [("application", "endcrypt-financial"), ("environment", "development"),
       ("version", "1.0.0"), ("keyAlias", "EndCrypt"), ("region", "eu-north-1")] }

/-- `ENDCRYPT_KMS_CONFIG.keyId`, the default customer master key id. -/
def customerMasterKeyId : String := "5e239a00-de10-43f1-b1df-8104ab293fbe"

/-- `this.cacheTimeout = 15 * 60 * 1000` (milliseconds). -/
def cacheTimeout : Nat := 15 * 60 * 1000

/-- Symbolic model of the string held in `encryptedBlob`: which transform
produced it and from what.  Real cryptographic output cannot be
re-implemented bit-for-bit, so a ciphertext records its provenance; the
matching symbolic decryption succeeds exactly when the real primitive would
recover the plaintext. -/
inductive CipherText where
  /-- `Buffer.from(data).toString('base64')` of the serialized payload
  (PUBLIC tier). -/
  | b64Text (plain : Str)
  /-- `kms.encrypt` under the root key, bound to an encryption context
  (INTERNAL tier). -/
  | kmsBlob (plain : Str) (ctx : CtxMap)
  /-- Hex output of `crypto.createCipher('aes-256-cbc', key)` over `plain`.
  `createCipher` takes no IV: key and IV are both derived from the key
  material, which is why no IV appears here. -/
  | aesCbcHex (plain : Str) (key : String)
deriving DecidableEq

/-- The `DataEncryptionKey` interface.  `plaintextKey` is the symbolic key
material returned by KMS; `encryptedKey` its wrapped form (base64 text,
opaque).  Times are milliseconds. -/
structure DataEncryptionKey where
  keyId : String
  plaintextKey : String
  encryptedKey : String
  createdAt : Nat
  expiresAt : Nat
deriving DecidableEq

/-- The `EncryptedData` envelope interface. -/
structure EncryptedData where
  encryptedBlob : CipherText
  dataKeyId : String
  encryptionContext : CtxMap
  algorithm : String
  classification : String
  timestamp : String
  iv : Option String := none
  authTag : Option String := none
deriving DecidableEq

/-- Mutable service state: `this.keyCache : Map<string, DataEncryptionKey>`,
threaded explicitly. -/
structure ServiceState where
  keyCache : List (String × DataEncryptionKey)
deriving DecidableEq

/-- `Map.prototype.get` / `has`: first entry with the given key. -/
def mapGet (m : List (String × DataEncryptionKey)) (k : String) :
    Option DataEncryptionKey :=
  (m.find? (fun p => p.1 == k)).map (fun p => p.2)

/-- `Map.prototype.set`: replace any existing entry for the key. -/
def mapSet (m : List (String × DataEncryptionKey)) (k : String)
    (v : DataEncryptionKey) : List (String × DataEncryptionKey) :=
  (k, v) :: m.filter (fun p => ¬ (p.1 == k))

/-- Per-call nondeterministic inputs (`crypto.randomUUID`,
`crypto.randomBytes`, KMS-generated key material), passed in explicitly. -/
structure Entropy where
  /-- `crypto.randomUUID()` naming the fresh DEK in `generateDataKey`. -/
  dekKeyId : String
  /-- `result.Plaintext` of `kms.generateDataKey`. -/
  kmsKeyPlaintext : String
  /-- `result.CiphertextBlob.toString('base64')` of the same call. -/
  kmsKeyWrapped : String
  /-- `crypto.randomBytes(16).toString('hex')`. -/
  ivHex : String
  /-- `crypto.randomUUID()` used by `tokenizeData`. -/
  tokenUuid : Str
deriving DecidableEq

/-! ### `AWSKMSService` methods -/

/-- `generateDataKey` (lines 198-234): ask KMS for a fresh data key, cache it
under a random `keyId` with `expiresAt = now + cacheTimeout`.  The
`setTimeout` eviction is asynchronous and modelled as time passing: `mapGet`
guards on `expiresAt` via `getOrDecryptDataKey`. -/
def generateDataKey (st : ServiceState) (e : Entropy) (now : Nat) :
    DataEncryptionKey × ServiceState :=
  let dataKey : DataEncryptionKey :=
    { keyId := e.dekKeyId
      plaintextKey := e.kmsKeyPlaintext
      encryptedKey := e.kmsKeyWrapped
      createdAt := now
      expiresAt := now + cacheTimeout }
  (dataKey, { keyCache := mapSet st.keyCache e.dekKeyId dataKey })

/-- `getOrDecryptDataKey` (lines 391-404): cache lookup guarded by
`expiresAt > new Date()`; anything else throws
`'Data key decryption not implemented'`.  The cache is returned unchanged:
the source only reads it here. -/
def getOrDecryptDataKey (st : ServiceState) (keyId : String) (now : Nat) :
    Except String DataEncryptionKey × ServiceState :=
  match mapGet st.keyCache keyId with
  | some cachedKey =>
    if now < cachedKey.expiresAt then (.ok cachedKey, st)
    else (.error "Data key decryption not implemented", st)
  | none => (.error "Data key decryption not implemented", st)

/-- `tokenizeData` (lines 406-412): `` `TOKEN:${token}:${base64}` ``. -/
def tokenizeData (tokenUuid : Str) (data : Str) : Str :=
  "TOKEN:".toList ++ tokenUuid ++ ':' :: toB64 data

/-- `detokenizeData` (lines 414-423): recognise the tag, split on `':'`,
decode the third part if it is a non-empty (truthy) string, otherwise return
the input unchanged. -/
def detokenizeData (tokenizedData : Str) : Str :=
  if "TOKEN:".toList.isPrefixOf tokenizedData then
    let parts := splitColon tokenizedData
    if 3 ≤ parts.length ∧ parts.getD 2 [] ≠ [] then fromB64 (parts.getD 2 [])
    else tokenizedData
  else tokenizedData

/-- `encryptPublicData` (lines 285-297). -/
def encryptPublicData (data : Str) (timestamp : String) : EncryptedData :=
  { encryptedBlob := .b64Text data
    dataKeyId := "public"
    encryptionContext := ENCRYPTION_CONFIG.encryptionContext
    algorithm := "base64"
    classification := DataClassification.PUBLIC
    timestamp := timestamp }

/-- `encryptInternalData` (lines 299-317): direct `kms.encrypt` of the data
under the customer master key, bound to `ENCRYPTION_CONFIG.encryptionContext`. -/
def encryptInternalData (data : Str) (timestamp : String) : EncryptedData :=
  { encryptedBlob := .kmsBlob data ENCRYPTION_CONFIG.encryptionContext
    dataKeyId := customerMasterKeyId
    encryptionContext := ENCRYPTION_CONFIG.encryptionContext
    algorithm := "aws-kms"
    classification := DataClassification.INTERNAL
    timestamp := timestamp }

/-- `encryptConfidentialData` (lines 319-338): generate a DEK, draw a random
IV (recorded in the envelope but not given to `createCipher`, which derives
key and IV from the key material alone), cipher the data. -/
def encryptConfidentialData (st : ServiceState) (e : Entropy) (data : Str)
    (timestamp : String) (now : Nat) : EncryptedData × ServiceState :=
  let (dataKey, st1) := generateDataKey st e now
  ({ encryptedBlob := .aesCbcHex data dataKey.plaintextKey
     dataKeyId := dataKey.keyId
     encryptionContext := ENCRYPTION_CONFIG.encryptionContext
     algorithm := "aes-256-cbc"
     classification := DataClassification.CONFIDENTIAL
     timestamp := timestamp
     iv := some e.ivHex
     authTag := some "sha256-hmac" }, st1)

/-- `encryptRestrictedData` (lines 340-344): tokenize, then delegate to the
CONFIDENTIAL path (which stamps its own `classification`). -/
def encryptRestrictedData (st : ServiceState) (e : Entropy) (data : Str)
    (timestamp : String) (now : Nat) : EncryptedData × ServiceState :=
  encryptConfidentialData st e (tokenizeData e.tokenUuid data) timestamp now

/-- The `switch (classification)` body of `encrypt` (lines 136-151), before
the surrounding `try`/`catch`.  `data` is the already-serialized payload
(`JSON.stringify(data)`); the classification argument is a runtime string,
so values outside the enum reach the `default` branch. -/
def encryptInner (st : ServiceState) (e : Entropy) (serializedData : Str)
    (classification : String) (timestamp : String) (now : Nat) :
    Except String (EncryptedData × ServiceState) :=
  if classification = DataClassification.PUBLIC then
    .ok (encryptPublicData serializedData timestamp, st)
  else if classification = DataClassification.INTERNAL then
    .ok (encryptInternalData serializedData timestamp, st)
  else if classification = DataClassification.CONFIDENTIAL then
    .ok (encryptConfidentialData st e serializedData timestamp now)
  else if classification = DataClassification.RESTRICTED then
    .ok (encryptRestrictedData st e serializedData timestamp now)
  else
    .error ("Unsupported data classification: " ++ classification)

/-- `encrypt` (lines 131-156): the `catch` block logs the inner error and
rethrows `Error('Failed to encrypt data')`, so the caller only ever sees the
generic message. -/
def encrypt (st : ServiceState) (e : Entropy) (serializedData : Str)
    (classification : String) (timestamp : String) (now : Nat) :
    Except String (EncryptedData × ServiceState) :=
  match encryptInner st e serializedData classification timestamp now with
  | .ok r => .ok r
  | .error _ => .error "Failed to encrypt data"

/-- `decryptPublicData` (lines 349-351): base64-decode the blob.  Decoding a
blob that is not base64 text would yield mojibake; no claim exercises that
path, so it is collapsed to the empty string. -/
def decryptPublicData : CipherText → Str
  | .b64Text plain => plain
  | _ => []

/-- Boundary model of `kms.decrypt`: unwrapping succeeds with the original
plaintext exactly when the supplied encryption context matches the one the
blob was bound to; otherwise AWS KMS raises `InvalidCiphertextException`. -/
def kmsDecrypt (ciphertextBlob : CipherText) (ctx : CtxMap) : Except String Str :=
  match ciphertextBlob with
  | .kmsBlob plain c => if c = ctx then .ok plain else .error "InvalidCiphertextException"
  | _ => .error "InvalidCiphertextException"

/-- `decryptInternalData` (lines 353-361): note the params pass the module
constant `ENCRYPTION_CONFIG.encryptionContext`, not anything taken from the
envelope; `dataKeyId` is accepted but unused. -/
def decryptInternalData (encryptedBlob : CipherText) (dataKeyId : String) :
    Except String Str :=
  kmsDecrypt encryptedBlob ENCRYPTION_CONFIG.encryptionContext

/-- Symbolic `crypto.createDecipher('aes-256-cbc', key)` +
`update`/`final`: recovers the plaintext exactly when deciphering with the
key the blob was enciphered under; a wrong key or foreign blob is a cipher
failure (`bad decrypt`). -/
def aesCbcDecrypt (encryptedBlob : CipherText) (key : String) : Except String Str :=
  match encryptedBlob with
  | .aesCbcHex plain k => if k = key then .ok plain else .error "bad decrypt"
  | _ => .error "bad decrypt"

/-- `decryptConfidentialData` (lines 363-376): resolve the DEK by
`dataKeyId`, then decipher with its `plaintextKey`.  The `iv` and `authTag`
parameters are received but never used (`createDecipher` takes no IV and no
tag is checked). -/
def decryptConfidentialData (st : ServiceState) (encryptedBlob : CipherText)
    (dataKeyId : String) (iv : String) (authTag : String) (now : Nat) :
    Except String Str :=
  match (getOrDecryptDataKey st dataKeyId now).1 with
  | .error err => .error err
  | .ok dataKey => aesCbcDecrypt encryptedBlob dataKey.plaintextKey

/-- `decryptRestrictedData` (lines 378-386): CONFIDENTIAL reversal, then
detokenize. -/
def decryptRestrictedData (st : ServiceState) (encryptedBlob : CipherText)
    (dataKeyId : String) (iv : String) (authTag : String) (now : Nat) :
    Except String Str :=
  match decryptConfidentialData st encryptedBlob dataKeyId iv authTag now with
  | .error err => .error err
  | .ok tokenizedData => .ok (detokenizeData tokenizedData)

/-- The `switch (classification)` body of `decrypt` (lines 163-186):
dispatch on the envelope's own `classification` field; `iv!` / `authTag!`
are non-null assertions on the optional fields. -/
def decryptInner (st : ServiceState) (encryptedData : EncryptedData) (now : Nat) :
    Except String Str :=
  if encryptedData.classification = DataClassification.PUBLIC then
    .ok (decryptPublicData encryptedData.encryptedBlob)
  else if encryptedData.classification = DataClassification.INTERNAL then
    decryptInternalData encryptedData.encryptedBlob encryptedData.dataKeyId
  else if encryptedData.classification = DataClassification.CONFIDENTIAL then
    decryptConfidentialData st encryptedData.encryptedBlob encryptedData.dataKeyId
      (encryptedData.iv.getD "") (encryptedData.authTag.getD "") now
  else if encryptedData.classification = DataClassification.RESTRICTED then
    decryptRestrictedData st encryptedData.encryptedBlob encryptedData.dataKeyId
      (encryptedData.iv.getD "") (encryptedData.authTag.getD "") now
  else
    .error ("Unsupported data classification: " ++ encryptedData.classification)

/-- `decrypt` (lines 161-193) at the serialized-string layer: the source
finishes with `JSON.parse(decryptedData)` inside the same `try`, and the
`catch` rethrows the generic `Error('Failed to decrypt data')`.  The result
here is the string handed to `JSON.parse`. -/
def decrypt (st : ServiceState) (encryptedData : EncryptedData) (now : Nat) :
    Except String Str :=
  match decryptInner st encryptedData now with
  | .ok s => .ok s
  | .error _ => .error "Failed to decrypt data"

deriving instance DecidableEq for Except

/-! ### Concrete sample inputs (used by counterexamples and witnesses) -/

/-- Serialized form (`JSON.stringify`) of the spec's concrete scenario
payload `\x7btransactionId: "TXN-001", amount: 1500.00, currency: "USD"\x7d`. -/
def sampleData : Str :=
  "\x7b\"transactionId\":\"TXN-001\",\"amount\":1500,\"currency\":\"USD\"\x7d".toList

def sampleTimestamp : String := "2026-01-01T00:00:00.000Z"

def sampleEntropy : Entropy :=
  { dekKeyId := "0f8fad5b-d9cb-469f-a165-70867728950e"
    kmsKeyPlaintext := "dek-plaintext-material"
    kmsKeyWrapped := "dek-wrapped-material"
    ivHex := "0123456789abcdef0123456789abcdef"
    tokenUuid := "123e4567-e89b-12d3-a456-426614174000".toList }

/-- A fresh service instance: empty DEK cache. -/
def st0 : ServiceState := { keyCache := [] }

/-! ### Claims -/

/-- Claim C1 (code bug, shown at the failing input): the spec's round-trip
property `decrypt(encrypt(P, T)) == P` fails for T = RESTRICTED.
`encryptRestrictedData` delegates to `encryptConfidentialData`, which stamps
`classification = "confidential"`, so `decrypt` takes the CONFIDENTIAL path,
never detokenizes, and hands the token string (which starts with `TOKEN:`
and is not JSON) to `JSON.parse`, which throws.  At the serialized-string
layer: the full pipeline returns the token string, not the original
serialization. -/
theorem C1_restricted_roundtrip_fails :
    encrypt st0 sampleEntropy sampleData DataClassification.RESTRICTED sampleTimestamp 0
      = .ok (encryptRestrictedData st0 sampleEntropy sampleData sampleTimestamp 0) ∧
    decrypt (encryptRestrictedData st0 sampleEntropy sampleData sampleTimestamp 0).2
        (encryptRestrictedData st0 sampleEntropy sampleData sampleTimestamp 0).1 0
      = .ok (tokenizeData sampleEntropy.tokenUuid sampleData) ∧
    "TOKEN:".toList.isPrefixOf (tokenizeData sampleEntropy.tokenUuid sampleData) = true ∧
    tokenizeData sampleEntropy.tokenUuid sampleData ≠ sampleData := by
  refine ⟨by decide, by decide, by decide, by decide⟩

/-- Claim C2 (code bug, shown at the failing input): the caller-supplied
tier is not preserved verbatim: encrypting at RESTRICTED yields an envelope
with `classification = "confidential"`, not `"restricted"`, contradicting
the spec and the repository's own testing guide
(`expect(encrypted.classification).toBe(DataClassification.RESTRICTED)`). -/
theorem C2_restricted_classification_lost :
    (encrypt st0 sampleEntropy sampleData DataClassification.RESTRICTED sampleTimestamp 0).map
        (fun r => r.1.classification) = .ok DataClassification.CONFIDENTIAL ∧
    DataClassification.CONFIDENTIAL ≠ DataClassification.RESTRICTED := by
  refine ⟨by decide, by decide⟩

/-- Claim C3, counterexample: the INTERNAL tier's algorithm tag is
`"aws-kms"` in the code, not the `"root-kms"` stated by the spec. -/
theorem C3_internal_algorithm_counterexample :
    (encrypt st0 sampleEntropy sampleData DataClassification.INTERNAL sampleTimestamp 0).map
        (fun r => r.1.algorithm) = .ok "aws-kms" ∧
    ("aws-kms" : String) ≠ "root-kms" := by
  refine ⟨by decide, by decide⟩

/-- Claim C3 as amended: for every payload and every call environment, the
algorithm tag of the envelope returned by `encrypt` is `"base64"` for
PUBLIC, `"aws-kms"` for INTERNAL, and `"aes-256-cbc"` for CONFIDENTIAL and
RESTRICTED. -/
theorem C3_algorithm_tags (st : ServiceState) (e : Entropy) (s : Str)
    (ts : String) (now : Nat) :
    (encrypt st e s DataClassification.PUBLIC ts now).map (fun r => r.1.algorithm)
      = .ok "base64" ∧
    (encrypt st e s DataClassification.INTERNAL ts now).map (fun r => r.1.algorithm)
      = .ok "aws-kms" ∧
    (encrypt st e s DataClassification.CONFIDENTIAL ts now).map (fun r => r.1.algorithm)
      = .ok "aes-256-cbc" ∧
    (encrypt st e s DataClassification.RESTRICTED ts now).map (fun r => r.1.algorithm)
      = .ok "aes-256-cbc" :=
  ⟨rfl, rfl, rfl, rfl⟩

/-- Claim C4, counterexample: an INTERNAL envelope whose `encryptionContext`
has been replaced by a different map decrypts successfully to the original
plaintext — no `ContextMismatchError`, because `decryptInternalData` never
reads the envelope's context. -/
theorem C4_mutated_context_still_decrypts :
    decrypt st0
        { encryptInternalData sampleData sampleTimestamp with
            encryptionContext := [("application", "tampered")] } 0
      = .ok sampleData ∧
    ([("application", "tampered")] : CtxMap) ≠ ENCRYPTION_CONFIG.encryptionContext := by
  refine ⟨by decide, by decide⟩

/-- Claim C4 as amended: `decryptInternalData` passes the module constant
`ENCRYPTION_CONFIG.encryptionContext` to the KMS unwrap and ignores the
envelope's `encryptionContext` field entirely, so decrypting an
INTERNAL-tier envelope with any mutated `encryptionContext` still succeeds
and returns the original plaintext (it is not a KMS-level failure, and no
wrong plaintext either). -/
theorem C4_context_field_ignored (s : Str) (ts : String) (ctx2 : CtxMap)
    (st : ServiceState) (now : Nat) :
    decrypt st { encryptInternalData s ts with encryptionContext := ctx2 } now
      = .ok s :=
  rfl

/-- Claim C5, counterexample: for the empty byte sequence the guard
`parts.length >= 3 && parts[2]` is falsy (the embedded base64 is the empty
string), so `detokenizeData` returns the whole token unchanged instead of
the original empty input. -/
theorem C5_empty_input_counterexample :
    detokenizeData (tokenizeData sampleEntropy.tokenUuid [])
      = tokenizeData sampleEntropy.tokenUuid [] ∧
    tokenizeData sampleEntropy.tokenUuid [] ≠ ([] : Str) := by
  refine ⟨by decide, by decide⟩

/-- Claim C5 as amended: for every non-empty input and every colon-free
token identifier (the format `crypto.randomUUID` produces),
`detokenize(tokenize(B)) = B`; for the empty input the truthiness guard
fails and the token is returned unchanged. -/
theorem C5_tokenize_roundtrip (uuid B : Str) (hu : ':' ∉ uuid) (hB : B ≠ []) :
    detokenizeData (tokenizeData uuid B) = B := by
  have hT : ':' ∉ "TOKEN".toList := by decide
  have heq : tokenizeData uuid B
      = "TOKEN".toList ++ ':' :: (uuid ++ ':' :: toB64 B) := rfl
  have hsplit : splitColon (tokenizeData uuid B)
      = ["TOKEN".toList, uuid, toB64 B] := by
    rw [heq, splitColon_append _ _ hT, splitColon_append _ _ hu,
        splitColon_no_colon _ (toB64_no_colon B)]
  have hpre : ['T', 'O', 'K', 'E', 'N', ':'] <+: tokenizeData uuid B :=
    ⟨uuid ++ ':' :: toB64 B, rfl⟩
  simp [detokenizeData, hpre, hsplit, toB64_ne_nil B hB, fromB64_toB64]

theorem C5_witness :
    (':' ∉ sampleEntropy.tokenUuid ∧ "42".toList ≠ ([] : Str)) ∧
    detokenizeData (tokenizeData sampleEntropy.tokenUuid "42".toList) = "42".toList :=
  ⟨⟨by decide, by decide⟩,
   C5_tokenize_roundtrip sampleEntropy.tokenUuid "42".toList (by decide) (by decide)⟩

/-- Claim C6 (confirmed): a DEK issued at time `now` with the fixed
15-minute TTL is still physically present in the cache map, but any lookup
strictly later than `now + cacheTimeout` is a miss (the
`expiresAt > new Date()` guard fails), never the stale plaintext key. -/
theorem C6_expired_key_is_miss (st : ServiceState) (e : Entropy) (now later : Nat)
    (h : now + cacheTimeout < later) :
    mapGet (generateDataKey st e now).2.keyCache e.dekKeyId
      = some (generateDataKey st e now).1 ∧
    (getOrDecryptDataKey (generateDataKey st e now).2 e.dekKeyId later).1
      = .error "Data key decryption not implemented" := by
  have hlt : ¬ later < now + cacheTimeout := by omega
  constructor
  · simp [generateDataKey, mapSet, mapGet]
  · simp [generateDataKey, mapSet, mapGet, getOrDecryptDataKey, hlt]

theorem C6_witness :
    0 + cacheTimeout < cacheTimeout + 1 ∧
    (getOrDecryptDataKey (generateDataKey st0 sampleEntropy 0).2
        sampleEntropy.dekKeyId (cacheTimeout + 1)).1
      = .error "Data key decryption not implemented" :=
  ⟨by decide,
   (C6_expired_key_is_miss st0 sampleEntropy 0 (cacheTimeout + 1) (by decide)).2⟩

/-- Claim C7, counterexample: calling `encrypt` with the out-of-enum tier
`"secret"` does fail with no envelope, but the error surfaced to the caller
is the generic `'Failed to encrypt data'` from the `catch` block; the
`'Unsupported data classification: secret'` error exists only inside the
`try` (it is logged, not thrown to the caller), so the caller-visible
failure does not identify the unknown-tier kind. -/
theorem C7_unknown_tier_generic_error :
    encrypt st0 sampleEntropy sampleData "secret" sampleTimestamp 0
      = .error "Failed to encrypt data" ∧
    encryptInner st0 sampleEntropy sampleData "secret" sampleTimestamp 0
      = .error "Unsupported data classification: secret" ∧
    ("Failed to encrypt data" : String) ≠ "Unsupported data classification: secret" := by
  refine ⟨by decide, by decide, by decide⟩

/-- Claim C7 as amended: for every tier value outside the four-member enum,
the dispatch raises `Unsupported data classification: <tier>` and produces
no envelope, but the surrounding `catch` re-throws the generic
`Error('Failed to encrypt data')`, which is what the caller observes. -/
theorem C7_unknown_tier_rejected (st : ServiceState) (e : Entropy) (s : Str)
    (c ts : String) (now : Nat)
    (h1 : c ≠ DataClassification.PUBLIC) (h2 : c ≠ DataClassification.INTERNAL)
    (h3 : c ≠ DataClassification.CONFIDENTIAL) (h4 : c ≠ DataClassification.RESTRICTED) :
    encryptInner st e s c ts now
      = .error ("Unsupported data classification: " ++ c) ∧
    encrypt st e s c ts now = .error "Failed to encrypt data" := by
  have hi : encryptInner st e s c ts now
      = .error ("Unsupported data classification: " ++ c) := by
    simp [encryptInner, h1, h2, h3, h4]
  exact ⟨hi, by simp [encrypt, hi]⟩

theorem C7_witness :
    ("secret" ≠ DataClassification.PUBLIC ∧ "secret" ≠ DataClassification.INTERNAL ∧
     "secret" ≠ DataClassification.CONFIDENTIAL ∧ "secret" ≠ DataClassification.RESTRICTED) ∧
    encrypt st0 sampleEntropy "x".toList "secret" sampleTimestamp 7
      = .error "Failed to encrypt data" :=
  ⟨⟨by decide, by decide, by decide, by decide⟩,
   (C7_unknown_tier_rejected st0 sampleEntropy "x".toList "secret" sampleTimestamp 7
      (by decide) (by decide) (by decide) (by decide)).2⟩

/-- Claim C8, counterexample: a CONFIDENTIAL envelope decrypts to the same
plaintext under two different `iv` values, both different from the IV
recorded at encrypt time — the decryption result is not a function of the
envelope's `iv` field. -/
theorem C8_iv_independence_counterexample :
    decrypt (encryptConfidentialData st0 sampleEntropy sampleData sampleTimestamp 0).2
        { (encryptConfidentialData st0 sampleEntropy sampleData sampleTimestamp 0).1 with
            iv := some "00000000000000000000000000000000" } 0
      = .ok sampleData ∧
    decrypt (encryptConfidentialData st0 sampleEntropy sampleData sampleTimestamp 0).2
        { (encryptConfidentialData st0 sampleEntropy sampleData sampleTimestamp 0).1 with
            iv := some "ffffffffffffffffffffffffffffffff" } 0
      = .ok sampleData ∧
    (some "00000000000000000000000000000000" : Option String)
      ≠ (encryptConfidentialData st0 sampleEntropy sampleData sampleTimestamp 0).1.iv := by
  refine ⟨by decide, by decide, by decide⟩

/-- Claim C8 as amended: CONFIDENTIAL decrypt resolves the DEK by
`dataKeyId` and deciphers with the key material alone:
`createDecipher('aes-256-cbc', key)` derives both key and IV from the DEK,
and the `iv` recorded in the envelope is never read, so while the DEK is
cache-resident decryption succeeds and returns the plaintext for any value
of the envelope's `iv` field. -/
theorem C8_iv_unused_dek_resolved (st : ServiceState) (e : Entropy) (s : Str)
    (ts : String) (now later : Nat) (iv2 : Option String)
    (h : later < now + cacheTimeout) :
    decrypt (encryptConfidentialData st e s ts now).2
        { (encryptConfidentialData st e s ts now).1 with iv := iv2 } later
      = .ok s := by
  simp [decrypt, decryptInner, decryptConfidentialData, encryptConfidentialData,
    generateDataKey, mapSet, mapGet, getOrDecryptDataKey, aesCbcDecrypt,
    DataClassification.PUBLIC, DataClassification.INTERNAL,
    DataClassification.CONFIDENTIAL, DataClassification.RESTRICTED, h]

theorem C8_witness :
    (0 : Nat) < 0 + cacheTimeout ∧
    decrypt (encryptConfidentialData st0 sampleEntropy sampleData sampleTimestamp 0).2
        { (encryptConfidentialData st0 sampleEntropy sampleData sampleTimestamp 0).1 with
            iv := some "deadbeef" } 0
      = .ok sampleData :=
  ⟨by decide,
   C8_iv_unused_dek_resolved st0 sampleEntropy sampleData sampleTimestamp 0 0
     (some "deadbeef") (by decide)⟩

/-- Claim C9 (confirmed): when the envelope's `dataKeyId` has no live cache
entry (absent, or present but expired), the lookup throws
`'Data key decryption not implemented'` without creating a key and with the
cache unchanged, and `decrypt` of a CONFIDENTIAL or RESTRICTED envelope
fails with the generic decryption error. -/
theorem C9_cache_miss_decrypt_fails (st : ServiceState) (env : EncryptedData) (now : Nat)
    (hmiss : ∀ dk, mapGet st.keyCache env.dataKeyId = some dk → dk.expiresAt ≤ now)
    (hcls : env.classification = DataClassification.CONFIDENTIAL ∨
            env.classification = DataClassification.RESTRICTED) :
    getOrDecryptDataKey st env.dataKeyId now
      = (.error "Data key decryption not implemented", st) ∧
    decrypt st env now = .error "Failed to decrypt data" := by
  have hk : getOrDecryptDataKey st env.dataKeyId now
      = (.error "Data key decryption not implemented", st) := by
    unfold getOrDecryptDataKey
    cases hm : mapGet st.keyCache env.dataKeyId with
    | none => rfl
    | some dk =>
      have hle := hmiss dk hm
      show (if now < dk.expiresAt then (Except.ok dk, st)
          else (Except.error "Data key decryption not implemented", st))
        = (Except.error "Data key decryption not implemented", st)
      rw [if_neg (by omega : ¬ now < dk.expiresAt)]
  have hc : decryptConfidentialData st env.encryptedBlob env.dataKeyId
      (env.iv.getD "") (env.authTag.getD "") now
      = .error "Data key decryption not implemented" := by
    unfold decryptConfidentialData
    rw [hk]
  refine ⟨hk, ?_⟩
  rcases hcls with h | h
  · simp [decrypt, decryptInner, h, DataClassification.PUBLIC,
      DataClassification.INTERNAL, DataClassification.CONFIDENTIAL,
      DataClassification.RESTRICTED, hc]
  · simp [decrypt, decryptInner, decryptRestrictedData, h,
      DataClassification.PUBLIC, DataClassification.INTERNAL,
      DataClassification.CONFIDENTIAL, DataClassification.RESTRICTED, hc]

theorem C9_witness :
    getOrDecryptDataKey st0
        (encryptConfidentialData st0 sampleEntropy sampleData sampleTimestamp 0).1.dataKeyId 0
      = (.error "Data key decryption not implemented", st0) ∧
    decrypt st0 (encryptConfidentialData st0 sampleEntropy sampleData sampleTimestamp 0).1 0
      = .error "Failed to decrypt data" :=
  C9_cache_miss_decrypt_fails st0
    (encryptConfidentialData st0 sampleEntropy sampleData sampleTimestamp 0).1 0
    (fun dk hdk => by simp [mapGet, st0] at hdk)
    (by decide)

/-- Claim C10 (confirmed): for a CONFIDENTIAL or RESTRICTED envelope the
`authTag` field (set to the constant `'sha256-hmac'` at encrypt time) is
never read by the decryption path: decrypting the same envelope under any
two `authTag` values yields the identical result. -/
theorem C10_authTag_never_read (st : ServiceState) (env : EncryptedData) (now : Nat)
    (a b : Option String)
    (hcls : env.classification = DataClassification.CONFIDENTIAL ∨
            env.classification = DataClassification.RESTRICTED) :
    decrypt st { env with authTag := a } now
      = decrypt st { env with authTag := b } now := by
  rcases hcls with h | h <;>
    simp [decrypt, decryptInner, decryptConfidentialData, decryptRestrictedData, h,
      DataClassification.PUBLIC, DataClassification.INTERNAL,
      DataClassification.CONFIDENTIAL, DataClassification.RESTRICTED]

theorem C10_witness :
    ((encryptConfidentialData st0 sampleEntropy sampleData sampleTimestamp 0).1.classification
        = DataClassification.CONFIDENTIAL ∨
     (encryptConfidentialData st0 sampleEntropy sampleData sampleTimestamp 0).1.classification
        = DataClassification.RESTRICTED) ∧
    decrypt st0
        { (encryptConfidentialData st0 sampleEntropy sampleData sampleTimestamp 0).1 with
            authTag := some "forged" } 0
      = decrypt st0
        { (encryptConfidentialData st0 sampleEntropy sampleData sampleTimestamp 0).1 with
            authTag := none } 0 :=
  ⟨by decide,
   C10_authTag_never_read st0
     (encryptConfidentialData st0 sampleEntropy sampleData sampleTimestamp 0).1 0
     (some "forged") none (by decide)⟩
